import Mathlib

/-!
Shallow embedding of the AWS cluster-api provider's instance-provisioning
subsystem (pkg/cloud/services/ec2/instances.go) and the AWSCluster
reconciler (controllers/awscluster_controller.go), together with proofs
about the embedded operations.

Remote AWS calls are modelled as explicit environment fields (functions
from request data to results); logging and event recording, which have no
observable effect on results, are elided.
-/

namespace CAPA

/-- Error class used by the provider: the awserrors package distinguishes
FailedDependency errors (precondition not yet satisfiable) from everything
else; classification survives message wrapping. -/
inductive AWSError where
  | failedDependency (msg : String)
  | other (msg : String)
  deriving DecidableEq, Repr

/-- Mirrors awserrors.IsFailedDependency applied to the error cause. -/
def AWSError.isFailedDependency : AWSError → Bool
  | .failedDependency _ => true
  | .other _ => false

/-! ## Spot-market translation (getInstanceMarketOptionsRequest) -/

/-- infrav1.SpotMarketOptions: the machine-spec spot option. -/
structure SpotMarketOptions where
  maxPrice : Option String
  deriving DecidableEq, Repr

/-- ec2.SpotMarketOptions as set by the code under test. -/
structure SpotOptions where
  instanceInterruptionBehavior : String
  spotInstanceType : String
  maxPrice : Option String
  deriving DecidableEq, Repr

/-- ec2.InstanceMarketOptionsRequest. -/
structure InstanceMarketOptionsRequest where
  marketType : String
  spotOptions : SpotOptions
  deriving DecidableEq, Repr

/-- Embeds getInstanceMarketOptionsRequest: nil spot options mean the
instance is not a spot instance (no market-options request); otherwise
interruption behavior is terminate, the spot type is one-time, and a
non-nil non-empty max price is copied into the request. -/
def getInstanceMarketOptionsRequest : Option SpotMarketOptions → Option InstanceMarketOptionsRequest
  | none => none
  | some spotMarketOptions =>
    let spotOptions : SpotOptions :=
      { instanceInterruptionBehavior := "terminate"
        spotInstanceType := "one-time"
        maxPrice :=
          match spotMarketOptions.maxPrice with
          | some p => if p ≠ "" then some p else none
          | none => none }
    some { marketType := "spot", spotOptions := spotOptions }

/-! ## Tag application (UpdateResourceTags) -/

/-- A remote tag-mutation call issued by UpdateResourceTags. -/
inductive TagCall where
  | createTags (tags : List (String × String))
  | deleteTags (tags : List (String × String))
  deriving DecidableEq, Repr

/-- Embeds UpdateResourceTags: the CreateTags call is issued only when the
create map is non-empty, the DeleteTags call only when the remove map is
non-empty. Returns the list of remote calls issued, in order. -/
def UpdateResourceTags (create remove : List (String × String)) : List TagCall :=
  (if create.length > 0 then [TagCall.createTags create] else [])
    ++ (if remove.length > 0 then [TagCall.deleteTags remove] else [])

/-! ## Security-group attachment on network interfaces -/

/-- Embeds containsGroup: true when the list contains the string. -/
def containsGroup (list : List String) (strToSearch : String) : Bool :=
  list.any (fun item => item == strToSearch)

/-- Embeds filterGroups: removes every occurrence of a string. -/
def filterGroups (list : List String) (strToFilter : String) : List String :=
  list.filter (fun item => item != strToFilter)

/-- Embeds attachSecurityGroupsToNetworkInterface for one interface whose
current groups are existingGroups: computes totalGroups = existing plus
every requested group not already present, and issues a
ModifyNetworkInterfaceAttribute call only when something new was added
(the Bool records whether the modify call was issued). -/
def attachSecurityGroupsToNetworkInterface (groups existingGroups : List String) :
    List String × Bool :=
  let totalGroups := existingGroups ++ groups.filter (fun g => !containsGroup existingGroups g)
  if existingGroups.length = totalGroups.length then
    (totalGroups, false)
  else
    (totalGroups, true)

/-- An elastic network interface as returned by DescribeNetworkInterfaces:
its id and its currently attached security groups. -/
structure ENI where
  interfaceID : String
  groups : List String
  deriving DecidableEq, Repr

/-- Embeds UpdateInstanceSecurityGroups: iterates over the instance's
ENIs and attaches the requested groups to each, returning the list of
ModifyNetworkInterfaceAttribute calls actually issued as
(interfaceID, totalGroups) pairs. -/
def UpdateInstanceSecurityGroups (enis : List ENI) (ids : List String) :
    List (String × List String) :=
  enis.filterMap (fun eni =>
    let r := attachSecurityGroupsToNetworkInterface ids eni.groups
    if r.2 then some (eni.interfaceID, r.1) else none)

/-! ## Subnet resolution (findSubnet) -/

/-- An observed subnet from the cluster's network status: id, availability
zone and public/private flag (infrav1.SubnetSpec, reduced to the fields
findSubnet consults). -/
structure Subnet where
  id : String
  availabilityZone : String
  isPublic : Bool
  deriving DecidableEq, Repr

/-- An EC2 API filter (name and accepted values). -/
structure EC2Filter where
  name : String
  values : List String
  deriving DecidableEq, Repr

/-- filter.EC2.SubnetStates(pending, available). -/
def filterSubnetStates : EC2Filter := ⟨"state", ["pending", "available"]⟩

/-- filter.EC2.VPC(vpcID). -/
def filterVPC (vpcID : String) : EC2Filter := ⟨"vpc-id", [vpcID]⟩

/-- filter.EC2.AvailabilityZone(az). -/
def filterAvailabilityZone (az : String) : EC2Filter := ⟨"availability-zone", [az]⟩

/-- Embeds Subnets().FindByID. -/
def findByID (subnets : List Subnet) (id : String) : Option Subnet :=
  subnets.find? (fun sn => sn.id == id)

/-- Embeds Subnets().FilterPrivate. -/
def filterPrivate (subnets : List Subnet) : List Subnet :=
  subnets.filter (fun sn => !sn.isPublic)

/-- Embeds Subnets().FilterByZone. -/
def filterByZone (subnets : List Subnet) (zone : String) : List Subnet :=
  subnets.filter (fun sn => sn.availabilityZone == zone)

/-- AWSResourceReference, reduced to the subnet reference fields findSubnet
consults: an optional explicit id and optional filter criteria. -/
structure AWSResourceReference where
  id : Option String
  filters : Option (List EC2Filter)

/-- The inputs findSubnet reads: machine- and AWSMachine-level failure
domains, the machine's subnet reference, the observed subnet set, the
externally-managed flag, the VPC id, and the remote DescribeSubnets call
(returning the matching subnet ids). -/
structure FindSubnetEnv where
  machineFailureDomain : Option String
  awsMachineFailureDomain : Option String
  subnet : Option AWSResourceReference
  subnets : List Subnet
  isExternallyManaged : Bool
  vpcID : String
  describeSubnets : List EC2Filter → Except AWSError (List String)

/-- The failure domain used by findSubnet: Machine.Spec.FailureDomain
first, falling back to AWSMachine.Spec.FailureDomain. -/
def effectiveFailureDomain (env : FindSubnetEnv) : Option String :=
  match env.machineFailureDomain with
  | some fd => some fd
  | none => env.awsMachineFailureDomain

/-- The last two findSubnet cases: a failure domain with no explicit
subnet picks the first private subnet in that zone; no constraints at all
pick the first private subnet overall; zero candidates is a
FailedDependency in both cases. -/
def findSubnetByZoneOrDefault (env : FindSubnetEnv) : Except AWSError String :=
  match effectiveFailureDomain env with
  | some fd =>
    match filterByZone (filterPrivate env.subnets) fd with
    | [] => .error (.failedDependency "no subnets available in availability zone")
    | sn :: _ => .ok sn.id
  | none =>
    match filterPrivate env.subnets with
    | [] => .error (.failedDependency "no subnets available")
    | sn :: _ => .ok sn.id

/-- The filter case of findSubnet: build criteria (subnet states; VPC
unless externally managed; availability zone when a failure domain is
set; each user filter), issue DescribeSubnets, fail with FailedDependency
on zero matches, otherwise take the first returned subnet id. -/
def findSubnetByFilters (env : FindSubnetEnv) (filters : List EC2Filter) :
    Except AWSError String :=
  let criteria := [filterSubnetStates]
    ++ (if !env.isExternallyManaged then [filterVPC env.vpcID] else [])
    ++ (match effectiveFailureDomain env with
        | some fd => [filterAvailabilityZone fd]
        | none => [])
    ++ filters
  match env.describeSubnets criteria with
  | .error e => .error e
  | .ok [] => .error (.failedDependency "no subnets available matching filters")
  | .ok (sid :: _) => .ok sid

/-- Embeds findSubnet: explicit subnet id first (validated against the
observed subnet set only when a failure domain is set), then subnet
filters, then failure domain, then the first private subnet. -/
def findSubnet (env : FindSubnetEnv) : Except AWSError String :=
  match env.subnet with
  | some subnetRef =>
    match subnetRef.id with
    | some subnetID =>
      match effectiveFailureDomain env with
      | some fd =>
        match findByID env.subnets subnetID with
        | none => .error (.failedDependency "subnet with the specified id not found")
        | some subnet =>
          if subnet.availabilityZone ≠ fd then
            .error (.failedDependency "subnet availability zone does not match the failure domain")
          else
            .ok subnetID
      | none => .ok subnetID
    | none =>
      match subnetRef.filters with
      | some filters => findSubnetByFilters env filters
      | none => findSubnetByZoneOrDefault env
  | none => findSubnetByZoneOrDefault env

/-! ## Security-group role resolution (GetCoreSecurityGroups) -/

/-- infrav1.SecurityGroupRole values. -/
inductive SecurityGroupRole where
  | bastion
  | apiserverLB
  | lb
  | controlPlane
  | node
  | eksNodeAdditional
  deriving DecidableEq, Repr

/-- The role list GetCoreSecurityGroups assembles for a non-externally
managed cluster: always node; the lb role unless EKS-managed; then per
machine role, control-plane adds controlPlane, node adds
eksNodeAdditional on an EKS-managed cluster; any other role string is
unknown (none). -/
def coreSGRoles (isEKSManaged : Bool) (role : String) :
    Option (List SecurityGroupRole) :=
  let sgRoles := [SecurityGroupRole.node]
    ++ (if !isEKSManaged then [SecurityGroupRole.lb] else [])
  if role = "node" then
    some (sgRoles ++ (if isEKSManaged then [SecurityGroupRole.eksNodeAdditional] else []))
  else if role = "control-plane" then
    some (sgRoles ++ [SecurityGroupRole.controlPlane])
  else
    none

/-- The lookup loop of GetCoreSecurityGroups: map each role through the
observed security-group map, failing with FailedDependency at the first
role with no mapping. -/
def resolveSGIDs (securityGroups : SecurityGroupRole → Option String) :
    List SecurityGroupRole → Except AWSError (List String)
  | [] => .ok []
  | sg :: rest =>
    match securityGroups sg with
    | none => .error (.failedDependency "security group not available")
    | some sgid =>
      match resolveSGIDs securityGroups rest with
      | .error e => .error e
      | .ok ids => .ok (sgid :: ids)

/-- Embeds GetCoreSecurityGroups: an externally managed cluster gets no
core groups at all; otherwise the assembled role list is resolved through
the observed security-group map, an unknown machine role being an
immediate plain error. -/
def GetCoreSecurityGroups (isExternallyManaged isEKSManaged : Bool) (role : String)
    (securityGroups : SecurityGroupRole → Option String) :
    Except AWSError (List String) :=
  if isExternallyManaged then
    .ok []
  else
    match coreSGRoles isEKSManaged role with
    | none => .error (.other "Unknown node role")
    | some sgRoles => resolveSGIDs securityGroups sgRoles

/-! ## SSH key name selection (CreateInstance) -/

/-- Modelled from the spec: the package-level default SSH key name
constant, defined in the ec2 service package outside the provided source
files; the spec only requires it to be a fixed non-empty name. -/
def defaultSSHKeyName : String := "default"

/-- Embeds the SSH key switch in CreateInstance: prefer the AWSMachine
spec value, fall back to the AWSCluster spec value, and when both are nil
use the default name unless the cluster is externally managed. -/
def prioritizedSSHKeyName (machineSSHKeyName clusterSSHKeyName : Option String)
    (isExternallyManaged : Bool) : String :=
  match machineSSHKeyName with
  | some k => k
  | none =>
    match clusterSSHKeyName with
    | some k => k
    | none => if !isExternallyManaged then defaultSSHKeyName else ""

/-- Embeds the guard after the switch: the create request's SSHKeyName is
set only when the prioritized name is not the empty string. -/
def inputSSHKeyName (machineSSHKeyName clusterSSHKeyName : Option String)
    (isExternallyManaged : Bool) : Option String :=
  let prioritized := prioritizedSSHKeyName machineSSHKeyName clusterSSHKeyName isExternallyManaged
  if prioritized ≠ "" then some prioritized else none

/-! ## Volumes, runInstance and the root-volume guard -/

/-- infrav1.Volume, reduced to the fields runInstance consults. -/
structure Volume where
  deviceName : String
  size : Int
  volumeType : String
  iops : Int
  encrypted : Bool
  encryptionKey : String
  deriving DecidableEq, Repr

/-- ec2.EbsBlockDevice as built by runInstance. -/
structure EbsBlockDevice where
  deleteOnTermination : Bool
  volumeSize : Int
  encrypted : Bool
  iops : Option Int
  kmsKeyID : Option String
  volumeType : Option String
  deriving DecidableEq, Repr

/-- ec2.BlockDeviceMapping. -/
structure BlockDeviceMapping where
  deviceName : String
  ebs : EbsBlockDevice
  deriving DecidableEq, Repr

/-- Builds the EBS device for a volume the way runInstance does for both
root and non-root volumes. -/
def buildEbsDevice (v : Volume) : EbsBlockDevice :=
  { deleteOnTermination := true
    volumeSize := v.size
    encrypted := if v.encryptionKey ≠ "" then true else v.encrypted
    iops := if v.iops ≠ 0 then some v.iops else none
    kmsKeyID := if v.encryptionKey ≠ "" then some v.encryptionKey else none
    volumeType := if v.volumeType ≠ "" then some v.volumeType else none }

/-- ec2.RunInstancesInput, reduced to the fields runInstance fills. -/
structure RunInstancesInput where
  instanceType : String
  imageID : String
  sshKeyName : Option String
  userData : String
  networkInterfaces : List (String × Nat)
  subnetID : Option String
  securityGroupIDs : Option (List String)
  iamInstanceProfile : Option String
  blockDeviceMappings : List BlockDeviceMapping
  tags : List (String × String)
  instanceMarketOptions : Option InstanceMarketOptionsRequest
  tenancy : Option String
  deriving DecidableEq, Repr

/-- The remote lookups runInstance depends on: the image's root device
name and snapshot size (both via DescribeImages) and the RunInstances
call itself, which returns the ids of the created instances. -/
structure RunInstanceEnv where
  imageRootDevice : String → Except AWSError String
  imageSnapshotSize : String → Except AWSError Int
  runInstances : RunInstancesInput → Except AWSError (List String)

/-- The resolved instance template CreateInstance hands to runInstance
(infrav1.Instance, reduced to the fields runInstance consults). -/
structure InstanceInput where
  instanceType : String
  imageID : String
  sshKeyName : Option String
  userData : String
  networkInterfaces : List String
  subnetID : String
  securityGroupIDs : List String
  iamProfile : String
  rootVolume : Option Volume
  nonRootVolumes : List Volume
  tags : List (String × String)
  spotMarketOptions : Option SpotMarketOptions
  tenancy : String

/-- Embeds checkRootVolume: look up the image's root device name and
snapshot size, and reject a root volume smaller than the snapshot. -/
def checkRootVolume (env : RunInstanceEnv) (rootVolume : Volume) (imageID : String) :
    Except AWSError String :=
  match env.imageRootDevice imageID with
  | .error e => .error e
  | .ok rootDeviceName =>
    match env.imageSnapshotSize imageID with
    | .error e => .error e
    | .ok snapshotSize =>
      if rootVolume.size < snapshotSize then
        .error (.other "root volume size must be greater than or equal to snapshot size")
      else
        .ok rootDeviceName

/-- Key-ordered insertion, embedding the sort.Strings over tag keys that
runInstance performs for deterministic tag ordering. -/
def insertTagSorted (t : String × String) : List (String × String) → List (String × String)
  | [] => [t]
  | u :: rest =>
    if t.1 ≤ u.1 then t :: u :: rest else u :: insertTagSorted t rest

/-- Tags sorted by key, as runInstance emits them. -/
def sortTagsByKey (tags : List (String × String)) : List (String × String) :=
  tags.foldr insertTagSorted []

/-- The non-root volume loop of runInstance: every non-root volume must
carry a device name, and each becomes a block-device mapping. -/
def buildNonRootMappings : List Volume → Except AWSError (List BlockDeviceMapping)
  | [] => .ok []
  | v :: rest =>
    if v.deviceName = "" then
      .error (.other "non root volume should have device name specified")
    else
      match buildNonRootMappings rest with
      | .error e => .error e
      | .ok ms => .ok ({ deviceName := v.deviceName, ebs := buildEbsDevice v } :: ms)

/-- Embeds runInstance: builds the RunInstancesInput (network interfaces
or subnet plus security groups, IAM profile, block-device mappings with
the root-volume guard, sorted tags, market options, tenancy), then issues
RunInstances. The returned Bool records whether the RunInstances call was
issued. The post-create bounded wait for the running state is elided: its
timeout is logged and never affects the result. -/
def runInstance (i : InstanceInput) (env : RunInstanceEnv) :
    Except AWSError String × Bool :=
  let base : RunInstancesInput :=
    { instanceType := i.instanceType
      imageID := i.imageID
      sshKeyName := i.sshKeyName
      userData := i.userData
      networkInterfaces :=
        if i.networkInterfaces.length > 0 then
          i.networkInterfaces.enum.map (fun p => (p.2, p.1))
        else []
      subnetID := if i.networkInterfaces.length > 0 then none else some i.subnetID
      securityGroupIDs :=
        if i.networkInterfaces.length > 0 then none
        else if i.securityGroupIDs.length > 0 then some i.securityGroupIDs else none
      iamInstanceProfile := if i.iamProfile ≠ "" then some i.iamProfile else none
      blockDeviceMappings := []
      tags := if i.tags.length > 0 then sortTagsByKey i.tags else []
      instanceMarketOptions := getInstanceMarketOptionsRequest i.spotMarketOptions
      tenancy := if i.tenancy ≠ "" then some i.tenancy else none }
  let rootStep : Except AWSError (List BlockDeviceMapping) :=
    match i.rootVolume with
    | none => .ok []
    | some rootVolume =>
      match checkRootVolume env rootVolume i.imageID with
      | .error e => .error e
      | .ok rootDeviceName =>
        .ok [{ deviceName := rootDeviceName, ebs := buildEbsDevice rootVolume }]
  match rootStep with
  | .error e => (.error e, false)
  | .ok rootMappings =>
    match buildNonRootMappings i.nonRootVolumes with
    | .error e => (.error e, false)
    | .ok nonRootMappings =>
      let input := { base with blockDeviceMappings := rootMappings ++ nonRootMappings }
      match env.runInstances input with
      | .error e => (.error e, true)
      | .ok [] => (.error (.other "no instance returned for reservation"), true)
      | .ok (instanceID :: _) => (.ok instanceID, true)

/-! ## CreateInstance -/

/-- The inputs CreateInstance reads: the machine spec fields, the scope
flags, the observed API-server ELB DNS name, the security-group map, the
image-lookup calls, the subnet-resolution inputs and the runInstance
environment. The userdata gzip plus base64 encoding is elided (it does
not affect any modelled result). -/
structure CreateInstanceEnv where
  instanceType : String
  iamProfile : String
  rootVolume : Option Volume
  nonRootVolumes : List Volume
  networkInterfaces : List String
  tags : List (String × String)
  amiID : Option String
  machineVersion : Option String
  machineImageLookupFormat : String
  machineImageLookupOrg : String
  machineImageLookupBaseOS : String
  clusterImageLookupFormat : String
  clusterImageLookupOrg : String
  clusterImageLookupBaseOS : String
  eksAMILookup : String → Except AWSError String
  defaultAMIIDLookup : String → String → String → String → Except AWSError String
  isEKSManaged : Bool
  elbDNSName : String
  role : String
  securityGroups : SecurityGroupRole → Option String
  machineSSHKeyName : Option String
  clusterSSHKeyName : Option String
  userData : String
  spotMarketOptions : Option SpotMarketOptions
  tenancy : String
  subnetEnv : FindSubnetEnv
  runEnv : RunInstanceEnv

/-- The externally-managed flag CreateInstance shares with findSubnet. -/
def CreateInstanceEnv.isExternallyManaged (env : CreateInstanceEnv) : Bool :=
  env.subnetEnv.isExternallyManaged

/-- Embeds the image-selection block of CreateInstance: an explicit AMI id
wins; otherwise the machine version is required, the lookup format, org
and base OS each fall back from the machine spec to the cluster spec, and
an EKS-managed cluster with no overrides uses the EKS AMI lookup while
everything else uses the default lookup. -/
def resolveImageID (env : CreateInstanceEnv) : Except AWSError String :=
  match env.amiID with
  | some imgID => .ok imgID
  | none =>
    match env.machineVersion with
    | none => .error (.other "Either AWSMachine ami id or Machine version must be defined")
    | some version =>
      let imageLookupFormat :=
        if env.machineImageLookupFormat = "" then env.clusterImageLookupFormat
        else env.machineImageLookupFormat
      let imageLookupOrg :=
        if env.machineImageLookupOrg = "" then env.clusterImageLookupOrg
        else env.machineImageLookupOrg
      let imageLookupBaseOS :=
        if env.machineImageLookupBaseOS = "" then env.clusterImageLookupBaseOS
        else env.machineImageLookupBaseOS
      if env.isEKSManaged ∧ imageLookupFormat = "" ∧ imageLookupOrg = "" ∧ imageLookupBaseOS = "" then
        env.eksAMILookup version
      else
        env.defaultAMIIDLookup imageLookupFormat imageLookupOrg imageLookupBaseOS version

/-- Embeds CreateInstance: resolve the image, resolve the subnet, require
an available API-server ELB DNS name for a cluster that is neither
externally managed nor EKS-managed (FailedDependency otherwise), resolve
the core security groups, select the SSH key name, then run the instance.
The returned Bool records whether the RunInstances create call was
issued. The post-create attachment of security groups to explicitly
provided network interfaces is elided. -/
def CreateInstance (env : CreateInstanceEnv) : Except AWSError String × Bool :=
  match resolveImageID env with
  | .error e => (.error e, false)
  | .ok imageID =>
    match findSubnet env.subnetEnv with
    | .error e => (.error e, false)
    | .ok subnetID =>
      if !env.isExternallyManaged ∧ !env.isEKSManaged ∧ env.elbDNSName = "" then
        (.error (.failedDependency "failed to run controlplane, APIServer ELB not available"), false)
      else
        match GetCoreSecurityGroups env.isExternallyManaged env.isEKSManaged env.role
            env.securityGroups with
        | .error e => (.error e, false)
        | .ok sgIDs =>
          let input : InstanceInput :=
            { instanceType := env.instanceType
              imageID := imageID
              sshKeyName := inputSSHKeyName env.machineSSHKeyName env.clusterSSHKeyName
                env.isExternallyManaged
              userData := env.userData
              networkInterfaces := env.networkInterfaces
              subnetID := subnetID
              securityGroupIDs := sgIDs
              iamProfile := env.iamProfile
              rootVolume := env.rootVolume
              nonRootVolumes := env.nonRootVolumes
              tags := env.tags
              spotMarketOptions := env.spotMarketOptions
              tenancy := env.tenancy }
          runInstance input env.runEnv

/-! ## AWSCluster reconciler: delete path -/

/-- The teardown steps of reconcileDelete, in source order. -/
inductive TeardownStep where
  | deleteEC2Events
  | deleteLoadbalancers
  | deleteBastion
  | deleteSecurityGroups
  | deleteNetwork
  | deleteBucket
  deriving DecidableEq, Repr

/-- The outcome of each service call reconcileDelete makes, as observed
from the collaborating services. -/
structure DeleteEnv where
  eventBridgeEnabled : Bool
  deleteEC2EventsOk : Bool
  deleteLoadbalancersOk : Bool
  deleteBastionOk : Bool
  deleteSecurityGroupsOk : Bool
  deleteNetworkOk : Bool
  deleteBucketOk : Bool
  deriving DecidableEq, Repr

/-- What a reconcileDelete run did: which steps were attempted in order,
whether an error was returned, and whether the finalizer was removed. -/
structure DeleteOutcome where
  attempted : List TeardownStep
  errored : Bool
  finalizerRemoved : Bool
  deriving DecidableEq, Repr

/-- Embeds reconcileDelete: optional EventBridge teardown whose failure is
non-fatal, then load balancers, bastion, security groups, network and
object-store bucket, each returning immediately on error; the finalizer
is removed only after every deletion succeeded. -/
def reconcileDelete (env : DeleteEnv) : DeleteOutcome :=
  let pre := if env.eventBridgeEnabled then [TeardownStep.deleteEC2Events] else []
  if !env.deleteLoadbalancersOk then
    ⟨pre ++ [TeardownStep.deleteLoadbalancers], true, false⟩
  else if !env.deleteBastionOk then
    ⟨pre ++ [TeardownStep.deleteLoadbalancers, TeardownStep.deleteBastion], true, false⟩
  else if !env.deleteSecurityGroupsOk then
    ⟨pre ++ [TeardownStep.deleteLoadbalancers, TeardownStep.deleteBastion,
      TeardownStep.deleteSecurityGroups], true, false⟩
  else if !env.deleteNetworkOk then
    ⟨pre ++ [TeardownStep.deleteLoadbalancers, TeardownStep.deleteBastion,
      TeardownStep.deleteSecurityGroups, TeardownStep.deleteNetwork], true, false⟩
  else if !env.deleteBucketOk then
    ⟨pre ++ [TeardownStep.deleteLoadbalancers, TeardownStep.deleteBastion,
      TeardownStep.deleteSecurityGroups, TeardownStep.deleteNetwork,
      TeardownStep.deleteBucket], true, false⟩
  else
    ⟨pre ++ [TeardownStep.deleteLoadbalancers, TeardownStep.deleteBastion,
      TeardownStep.deleteSecurityGroups, TeardownStep.deleteNetwork,
      TeardownStep.deleteBucket], false, true⟩

/-! ## AWSCluster reconciler: create path -/

/-- The outcomes of the calls reconcileNormal makes, observed from the
collaborating services, plus the observed ELB DNS name and whether that
name currently resolves. -/
structure NormalEnv where
  patchOk : Bool
  reconcileNetworkOk : Bool
  reconcileSecurityGroupsOk : Bool
  reconcileBastionOk : Bool
  eventBridgeEnabled : Bool
  reconcileEC2EventsOk : Bool
  reconcileLoadbalancersOk : Bool
  reconcileBucketOk : Bool
  elbDNSName : String
  dnsResolves : Bool

/-- What a reconcileNormal run produced: whether an error was returned,
the requeue delay in seconds (0 when none), whether Status.Ready was set,
and the control-plane endpoint host when published. -/
structure NormalOutcome where
  errored : Bool
  requeueAfterSeconds : Nat
  ready : Bool
  endpointHost : Option String
  deriving DecidableEq, Repr

/-- Embeds reconcileNormal: finalizer add and patch, then network,
security groups, bastion (each aborting with an error on failure), the
non-fatal EventBridge setup, load balancers and bucket (each aborting on
failure); then an empty ELB DNS name requeues after 15 seconds with no
error, an unresolvable DNS name requeues after 15 seconds with no error,
and only past both waits is the endpoint published and Ready set. -/
def reconcileNormal (env : NormalEnv) : NormalOutcome :=
  if !env.patchOk then ⟨true, 0, false, none⟩
  else if !env.reconcileNetworkOk then ⟨true, 0, false, none⟩
  else if !env.reconcileSecurityGroupsOk then ⟨true, 0, false, none⟩
  else if !env.reconcileBastionOk then ⟨true, 0, false, none⟩
  else if !env.reconcileLoadbalancersOk then ⟨true, 0, false, none⟩
  else if !env.reconcileBucketOk then ⟨true, 0, false, none⟩
  else if env.elbDNSName = "" then ⟨false, 15, false, none⟩
  else if !env.dnsResolves then ⟨false, 15, false, none⟩
  else ⟨false, 0, true, some env.elbDNSName⟩

/-! ## Concrete fixtures used by witnesses and counterexamples -/

/-- A findSubnet environment with an explicit subnet id, an empty observed
subnet set and no failure domain. -/
def subnetEnvNoFD : FindSubnetEnv :=
  { machineFailureDomain := none
    awsMachineFailureDomain := none
    subnet := some ⟨some "subnet-1", none⟩
    subnets := []
    isExternallyManaged := false
    vpcID := "vpc-1"
    describeSubnets := fun _ => .ok [] }

/-- A findSubnet environment with an explicit subnet id whose observed
availability zone does not match the requested failure domain. -/
def subnetEnvMismatchFD : FindSubnetEnv :=
  { machineFailureDomain := some "us-east-1b"
    awsMachineFailureDomain := none
    subnet := some ⟨some "subnet-1", none⟩
    subnets := [⟨"subnet-1", "us-east-1a", false⟩]
    isExternallyManaged := false
    vpcID := "vpc-1"
    describeSubnets := fun _ => .ok [] }

/-- The same environment with the failure-domain constraint removed. -/
def subnetEnvMatch : FindSubnetEnv :=
  { subnetEnvMismatchFD with machineFailureDomain := none }

/-- A remote environment where the image root device is /dev/sda1, the
image snapshot size is 20 and RunInstances succeeds. -/
def runEnvSnapshot20 : RunInstanceEnv :=
  { imageRootDevice := fun _ => .ok "/dev/sda1"
    imageSnapshotSize := fun _ => .ok 20
    runInstances := fun _ => .ok ["i-1"] }

/-- A root volume of size 10, smaller than the fixture snapshot. -/
def volSize10 : Volume := ⟨"", 10, "", 0, false, ""⟩

/-- A root volume of size 25, at least the fixture snapshot size. -/
def volSize25 : Volume := ⟨"", 25, "", 0, false, ""⟩

/-- An instance template requesting the too-small root volume. -/
def inputRootVol10 : InstanceInput :=
  { instanceType := "m5.large"
    imageID := "ami-1"
    sshKeyName := none
    userData := ""
    networkInterfaces := []
    subnetID := "subnet-1"
    securityGroupIDs := []
    iamProfile := ""
    rootVolume := some volSize10
    nonRootVolumes := []
    tags := []
    spotMarketOptions := none
    tenancy := "" }

/-- An observed security-group map with the node, lb and control-plane
roles populated. -/
def sgMapFull : SecurityGroupRole → Option String
  | .node => some "sg-node"
  | .lb => some "sg-lb"
  | .controlPlane => some "sg-cp"
  | _ => none

/-- A CreateInstance environment for a control-plane machine on a cluster
that is neither externally managed nor EKS-managed, with an explicit AMI,
a resolvable subnet and an empty API-server ELB DNS name. -/
def createEnvNoELB : CreateInstanceEnv :=
  { instanceType := "m5.large"
    iamProfile := ""
    rootVolume := none
    nonRootVolumes := []
    networkInterfaces := []
    tags := []
    amiID := some "ami-1"
    machineVersion := none
    machineImageLookupFormat := ""
    machineImageLookupOrg := ""
    machineImageLookupBaseOS := ""
    clusterImageLookupFormat := ""
    clusterImageLookupOrg := ""
    clusterImageLookupBaseOS := ""
    eksAMILookup := fun _ => .error (.other "unused")
    defaultAMIIDLookup := fun _ _ _ _ => .error (.other "unused")
    isEKSManaged := false
    elbDNSName := ""
    role := "control-plane"
    securityGroups := sgMapFull
    machineSSHKeyName := none
    clusterSSHKeyName := none
    userData := ""
    spotMarketOptions := none
    tenancy := ""
    subnetEnv := subnetEnvMatch
    runEnv := runEnvSnapshot20 }

/-- A reconcileNormal environment where every converger succeeds but the
ELB DNS name is still empty. -/
def normalEnvNoDNS : NormalEnv :=
  { patchOk := true
    reconcileNetworkOk := true
    reconcileSecurityGroupsOk := true
    reconcileBastionOk := true
    eventBridgeEnabled := false
    reconcileEC2EventsOk := true
    reconcileLoadbalancersOk := true
    reconcileBucketOk := true
    elbDNSName := ""
    dnsResolves := false }

/-! ## Helper lemmas -/

theorem containsGroup_iff (l : List String) (s : String) :
    containsGroup l s = true ↔ s ∈ l := by
  simp [containsGroup, List.any_eq_true]

theorem containsGroup_eq_false_iff (l : List String) (s : String) :
    containsGroup l s = false ↔ s ∉ l := by
  rw [← containsGroup_iff]
  cases containsGroup l s <;> simp

theorem attach_totalGroups (groups existingGroups : List String) :
    (attachSecurityGroupsToNetworkInterface groups existingGroups).1
      = existingGroups ++ groups.filter (fun g => !containsGroup existingGroups g) := by
  simp only [attachSecurityGroupsToNetworkInterface, apply_ite Prod.fst, ite_self]

theorem attach_union (groups existingGroups : List String) :
    (attachSecurityGroupsToNetworkInterface groups existingGroups).1.toFinset
      = existingGroups.toFinset ∪ groups.toFinset := by
  rw [attach_totalGroups, List.toFinset_append]
  ext x
  simp [List.mem_filter, containsGroup_eq_false_iff]
  tauto

theorem attach_no_call_iff (groups existingGroups : List String) :
    (attachSecurityGroupsToNetworkInterface groups existingGroups).2 = false ↔
      ∀ g ∈ groups, g ∈ existingGroups := by
  have hfil : (groups.filter (fun g => !containsGroup existingGroups g) = []) ↔
      ∀ g ∈ groups, g ∈ existingGroups := by
    rw [List.filter_eq_nil_iff]
    simp [containsGroup_iff]
  rw [← hfil]
  simp only [attachSecurityGroupsToNetworkInterface, apply_ite Prod.snd,
    List.length_append, Nat.self_eq_add_right, List.length_eq_zero]
  split
  · rename_i h
    simp [h]
  · rename_i h
    simp [h]

/-! ## Claim theorems -/

/-- Claim C3: UpdateInstanceSecurityGroups attaches to each network
interface exactly the set union of the existing and requested groups,
preserves all existing groups, and skips the modify call when every
requested group is already present; existing sg-1,sg-2 with attach
sg-2,sg-3 yields sg-1,sg-2,sg-3 with exactly one modify call, and attach
sg-1,sg-2 yields zero calls. -/
theorem c3_security_group_union :
    (∀ groups existingGroups : List String,
      ((attachSecurityGroupsToNetworkInterface groups existingGroups).1.toFinset
          = existingGroups.toFinset ∪ groups.toFinset) ∧
        ((attachSecurityGroupsToNetworkInterface groups existingGroups).2 = false ↔
          ∀ g ∈ groups, g ∈ existingGroups)) ∧
    UpdateInstanceSecurityGroups [⟨"eni-1", ["sg-1", "sg-2"]⟩] ["sg-2", "sg-3"]
      = [("eni-1", ["sg-1", "sg-2", "sg-3"])] ∧
    UpdateInstanceSecurityGroups [⟨"eni-1", ["sg-1", "sg-2"]⟩] ["sg-1", "sg-2"] = [] := by
  refine ⟨fun groups existingGroups =>
    ⟨attach_union groups existingGroups, attach_no_call_iff groups existingGroups⟩, ?_, ?_⟩
  · rfl
  · rfl

/-- Witness for C3 at the documented example inputs. -/
theorem c3_security_group_union_witness :
    (attachSecurityGroupsToNetworkInterface ["sg-2", "sg-3"] ["sg-1", "sg-2"]).1.toFinset
      = (["sg-1", "sg-2"] : List String).toFinset ∪ (["sg-2", "sg-3"] : List String).toFinset ∧
    (attachSecurityGroupsToNetworkInterface ["sg-1", "sg-2"] ["sg-1", "sg-2"]).2 = false := by
  obtain ⟨h, -, -⟩ := c3_security_group_union
  exact ⟨(h ["sg-2", "sg-3"] ["sg-1", "sg-2"]).1,
    (h ["sg-1", "sg-2"] ["sg-1", "sg-2"]).2.mpr (by decide)⟩

/-- Claim C4: a non-nil spot options value yields a market-options request
with market type spot, interruption behavior terminate and spot type
one-time, a non-nil non-empty max price is passed through verbatim, and a
nil spot options value yields no market-options request. -/
theorem c4_spot_translation :
    getInstanceMarketOptionsRequest none = none ∧
    ∀ smo : SpotMarketOptions, ∃ req,
      getInstanceMarketOptionsRequest (some smo) = some req ∧
      req.marketType = "spot" ∧
      req.spotOptions.instanceInterruptionBehavior = "terminate" ∧
      req.spotOptions.spotInstanceType = "one-time" ∧
      (∀ p, smo.maxPrice = some p → p ≠ "" → req.spotOptions.maxPrice = some p) := by
  refine ⟨rfl, fun smo => ⟨_, rfl, rfl, rfl, rfl, ?_⟩⟩
  intro p hp hne
  simp [hp, hne]

/-- Witness for C4 at max price 0.05. -/
theorem c4_spot_translation_witness :
    ∃ req, getInstanceMarketOptionsRequest (some ⟨some "0.05"⟩) = some req ∧
      req.marketType = "spot" ∧
      req.spotOptions.instanceInterruptionBehavior = "terminate" ∧
      req.spotOptions.spotInstanceType = "one-time" ∧
      req.spotOptions.maxPrice = some "0.05" := by
  obtain ⟨-, h⟩ := c4_spot_translation
  obtain ⟨req, hreq, hmt, hib, hst, hmp⟩ := h ⟨some "0.05"⟩
  exact ⟨req, hreq, hmt, hib, hst, hmp "0.05" rfl (by decide)⟩

/-- Claim C6: UpdateResourceTags issues a tag-create call iff the create
map is non-empty, a tag-delete call iff the remove map is non-empty, and
no remote call at all when both are empty. -/
theorem c6_tag_calls (create remove : List (String × String)) :
    ((TagCall.createTags create ∈ UpdateResourceTags create remove) ↔ create ≠ []) ∧
    ((TagCall.deleteTags remove ∈ UpdateResourceTags create remove) ↔ remove ≠ []) ∧
    (create = [] → remove = [] → UpdateResourceTags create remove = []) := by
  cases create <;> cases remove <;> simp [UpdateResourceTags]

/-- Witness for C6: create map with one key and remove map with one key
issue both calls; empty maps issue zero calls. -/
theorem c6_tag_calls_witness :
    UpdateResourceTags [] [] = [] ∧
    TagCall.createTags [("c", "3")] ∈ UpdateResourceTags [("c", "3")] [("a", "1")] ∧
    TagCall.deleteTags [("a", "1")] ∈ UpdateResourceTags [("c", "3")] [("a", "1")] := by
  have h := c6_tag_calls [("c", "3")] [("a", "1")]
  have h0 := c6_tag_calls ([] : List (String × String)) ([] : List (String × String))
  exact ⟨h0.2.2 rfl rfl, h.1.mpr (by decide), h.2.1.mpr (by decide)⟩

/-- Claim C5: a requested root volume smaller than the image's snapshot
size is rejected by checkRootVolume, and runInstance then fails before
the RunInstances create call is ever issued; a size at least the
snapshot size passes the check. -/
theorem c5_root_volume_guard :
    (∀ (env : RunInstanceEnv) (rootVolume : Volume) (imageID rootDeviceName : String)
        (snapshotSize : Int),
      env.imageRootDevice imageID = .ok rootDeviceName →
      env.imageSnapshotSize imageID = .ok snapshotSize →
      (rootVolume.size < snapshotSize →
        checkRootVolume env rootVolume imageID
          = .error (.other "root volume size must be greater than or equal to snapshot size")) ∧
      (snapshotSize ≤ rootVolume.size →
        checkRootVolume env rootVolume imageID = .ok rootDeviceName)) ∧
    (∀ (i : InstanceInput) (env : RunInstanceEnv) (rootVolume : Volume) (e : AWSError),
      i.rootVolume = some rootVolume →
      checkRootVolume env rootVolume i.imageID = .error e →
      runInstance i env = (.error e, false)) := by
  constructor
  · intro env rootVolume imageID rootDeviceName snapshotSize hrd hss
    constructor
    · intro hlt
      simp [checkRootVolume, hrd, hss, hlt]
    · intro hge
      simp [checkRootVolume, hrd, hss, not_lt.mpr hge]
  · intro i env rootVolume e hroot hcheck
    simp [runInstance, hroot, hcheck]

/-- Witness for C5: snapshot size 20 with requested size 10 is rejected
and no create call is issued; requested size 25 passes the check. -/
theorem c5_root_volume_guard_witness :
    checkRootVolume runEnvSnapshot20 volSize10 "ami-1"
      = .error (.other "root volume size must be greater than or equal to snapshot size") ∧
    runInstance inputRootVol10 runEnvSnapshot20
      = (.error (.other "root volume size must be greater than or equal to snapshot size"), false) ∧
    checkRootVolume runEnvSnapshot20 volSize25 "ami-1" = .ok "/dev/sda1" := by
  obtain ⟨hcheck, hrun⟩ := c5_root_volume_guard
  have h10 := (hcheck runEnvSnapshot20 volSize10 "ami-1" "/dev/sda1" 20 rfl rfl).1 (by decide)
  have h25 := (hcheck runEnvSnapshot20 volSize25 "ami-1" "/dev/sda1" 20 rfl rfl).2 (by decide)
  exact ⟨h10, hrun inputRootVol10 runEnvSnapshot20 volSize10 _ rfl h10, h25⟩

/-- Claim C1 (amended): with an explicit subnet id and no failure domain,
findSubnet returns that id directly, without checking it against the
observed subnet set; with a failure domain the id must exist in the
observed set and its availability zone must equal the failure domain,
else findSubnet fails with a FailedDependency error; in every successful
case the returned id is exactly the explicit id. -/
theorem c1_explicit_subnet (env : FindSubnetEnv) (subnetRef : AWSResourceReference)
    (sid : String) (hsub : env.subnet = some subnetRef) (hid : subnetRef.id = some sid) :
    (effectiveFailureDomain env = none → findSubnet env = .ok sid) ∧
    (∀ fd, effectiveFailureDomain env = some fd →
      (findByID env.subnets sid = none →
        findSubnet env
          = .error (.failedDependency "subnet with the specified id not found")) ∧
      (∀ sn, findByID env.subnets sid = some sn →
        (sn.availabilityZone ≠ fd →
          findSubnet env
            = .error
              (.failedDependency "subnet availability zone does not match the failure domain")) ∧
        (sn.availabilityZone = fd → findSubnet env = .ok sid))) := by
  constructor
  · intro hfd
    simp [findSubnet, hsub, hid, hfd]
  · intro fd hfd
    constructor
    · intro hfind
      simp [findSubnet, hsub, hid, hfd, hfind]
    · intro sn hfind
      constructor
      · intro hne
        simp [findSubnet, hsub, hid, hfd, hfind, hne]
      · intro heq
        simp [findSubnet, hsub, hid, hfd, hfind, heq]

/-- Counterexample for C1 as stated: an explicit subnet id absent from the
observed subnet set, with no failure domain, is returned successfully
instead of failing with FailedDependency. -/
theorem c1_explicit_subnet_counterexample :
    subnetEnvNoFD.subnets = [] ∧
    subnetEnvNoFD.subnet = some ⟨some "subnet-1", none⟩ ∧
    effectiveFailureDomain subnetEnvNoFD = none ∧
    findByID subnetEnvNoFD.subnets "subnet-1" = none ∧
    findSubnet subnetEnvNoFD = .ok "subnet-1" :=
  ⟨rfl, rfl, rfl, rfl, rfl⟩

/-- Witness for C1: a non-matching failure domain fails with
FailedDependency, and removing the failure domain returns the exact
explicit subnet id. -/
theorem c1_explicit_subnet_witness :
    findSubnet subnetEnvMismatchFD
      = .error (.failedDependency "subnet availability zone does not match the failure domain") ∧
    findSubnet subnetEnvMatch = .ok "subnet-1" := by
  obtain ⟨-, h2⟩ :=
    c1_explicit_subnet subnetEnvMismatchFD ⟨some "subnet-1", none⟩ "subnet-1" rfl rfl
  obtain ⟨-, hsome⟩ := h2 "us-east-1b" rfl
  obtain ⟨hmm, -⟩ := hsome ⟨"subnet-1", "us-east-1a", false⟩ rfl
  obtain ⟨h1, -⟩ :=
    c1_explicit_subnet subnetEnvMatch ⟨some "subnet-1", none⟩ "subnet-1" rfl rfl
  exact ⟨hmm (by decide), h1 rfl⟩

theorem resolveSGIDs_ok_of_all_present (m : SecurityGroupRole → Option String)
    (roles : List SecurityGroupRole) (h : ∀ sg ∈ roles, m sg ≠ none) :
    ∃ ids, resolveSGIDs m roles = .ok ids := by
  induction roles with
  | nil => exact ⟨[], rfl⟩
  | cons sg rest ih =>
    cases hm : m sg with
    | none => exact absurd hm (h sg (by simp))
    | some sgid =>
      obtain ⟨ids, hids⟩ := ih (fun x hx => h x (by simp [hx]))
      exact ⟨sgid :: ids, by simp [resolveSGIDs, hm, hids]⟩

theorem resolveSGIDs_failedDependency_of_missing (m : SecurityGroupRole → Option String)
    (roles : List SecurityGroupRole) (sg : SecurityGroupRole)
    (hmem : sg ∈ roles) (hnone : m sg = none) :
    ∃ msg, resolveSGIDs m roles = .error (.failedDependency msg) := by
  induction roles with
  | nil => cases hmem
  | cons a rest ih =>
    cases hm : m a with
    | none => exact ⟨"security group not available", by simp [resolveSGIDs, hm]⟩
    | some sgid =>
      have hrest : sg ∈ rest := by
        rcases List.mem_cons.mp hmem with h | h
        · subst h
          rw [hm] at hnone
          cases hnone
        · exact h
      obtain ⟨msg, hmsg⟩ := ih hrest
      exact ⟨msg, by simp [resolveSGIDs, hm, hmsg]⟩

/-- Claim C7 (amended): for a cluster that is not externally managed,
GetCoreSecurityGroups resolves the fixed role list (always node; lb
unless EKS-managed; control-plane adds the control-plane role; node on an
EKS-managed cluster adds the EKS-node-additional role), any other role
string is an immediate non-FailedDependency error, and a role with no id
mapping in the observed security-group map is a FailedDependency error;
an externally managed cluster bypasses all of this and returns no groups
regardless of the role string. -/
theorem c7_role_resolution (isEKSManaged : Bool) (role : String)
    (securityGroups : SecurityGroupRole → Option String) :
    (role ≠ "node" → role ≠ "control-plane" →
      GetCoreSecurityGroups false isEKSManaged role securityGroups
        = .error (.other "Unknown node role")) ∧
    (GetCoreSecurityGroups false isEKSManaged "control-plane" securityGroups
      = resolveSGIDs securityGroups
          ([SecurityGroupRole.node]
            ++ (if !isEKSManaged then [SecurityGroupRole.lb] else [])
            ++ [SecurityGroupRole.controlPlane])) ∧
    (GetCoreSecurityGroups false isEKSManaged "node" securityGroups
      = resolveSGIDs securityGroups
          ([SecurityGroupRole.node]
            ++ (if !isEKSManaged then [SecurityGroupRole.lb] else [])
            ++ (if isEKSManaged then [SecurityGroupRole.eksNodeAdditional] else []))) ∧
    (∀ sgRoles, (∀ sg ∈ sgRoles, securityGroups sg ≠ none) →
      ∃ ids, resolveSGIDs securityGroups sgRoles = .ok ids) ∧
    (∀ sgRoles sg, sg ∈ sgRoles → securityGroups sg = none →
      ∃ msg, resolveSGIDs securityGroups sgRoles = .error (.failedDependency msg)) := by
  refine ⟨?_, ?_, ?_, resolveSGIDs_ok_of_all_present securityGroups,
    fun sgRoles sg => resolveSGIDs_failedDependency_of_missing securityGroups sgRoles sg⟩
  · intro h1 h2
    simp [GetCoreSecurityGroups, coreSGRoles, h1, h2]
  · simp [GetCoreSecurityGroups, coreSGRoles]
  · simp [GetCoreSecurityGroups, coreSGRoles]

/-- Counterexample for C7 as stated: on an externally managed cluster an
unknown role string does not produce an error at all; the call returns an
empty group list. -/
theorem c7_role_resolution_counterexample :
    GetCoreSecurityGroups true false "unknown-role" (fun _ => none) = .ok [] := rfl

/-- Witness for C7: an unknown role errors immediately, a populated map
resolves node, lb and control-plane ids in order, and a missing mapping
is a FailedDependency. -/
theorem c7_role_resolution_witness :
    GetCoreSecurityGroups false false "bastion" sgMapFull
      = .error (.other "Unknown node role") ∧
    GetCoreSecurityGroups false false "control-plane" sgMapFull
      = .ok ["sg-node", "sg-lb", "sg-cp"] ∧
    (∃ msg, resolveSGIDs (fun _ => none) [SecurityGroupRole.node]
      = .error (.failedDependency msg)) := by
  obtain ⟨h1, h2, -, -, -⟩ := c7_role_resolution false "bastion" sgMapFull
  obtain ⟨-, -, -, -, h5⟩ := c7_role_resolution false "bastion" (fun _ => none)
  refine ⟨h1 (by decide) (by decide), ?_, ?_⟩
  · rw [h2]
    rfl
  · exact h5 [SecurityGroupRole.node] SecurityGroupRole.node (by simp) rfl

/-- Claim C2: reconcileDelete runs load-balancer deletion, bastion
termination, security-group deletion, network deletion and object-store
deletion strictly in that order, the first hard error aborts the delete
so no later step is attempted (a load-balancer failure means bastion
termination is never attempted), and the finalizer is removed only after
every deletion step succeeded. -/
theorem c2_teardown_order (env : DeleteEnv) :
    (TeardownStep.deleteLoadbalancers ∈ (reconcileDelete env).attempted) ∧
    ((TeardownStep.deleteBastion ∈ (reconcileDelete env).attempted) ↔
      env.deleteLoadbalancersOk = true) ∧
    ((TeardownStep.deleteSecurityGroups ∈ (reconcileDelete env).attempted) ↔
      (env.deleteLoadbalancersOk && env.deleteBastionOk) = true) ∧
    ((TeardownStep.deleteNetwork ∈ (reconcileDelete env).attempted) ↔
      (env.deleteLoadbalancersOk && env.deleteBastionOk &&
        env.deleteSecurityGroupsOk) = true) ∧
    ((TeardownStep.deleteBucket ∈ (reconcileDelete env).attempted) ↔
      (env.deleteLoadbalancersOk && env.deleteBastionOk && env.deleteSecurityGroupsOk &&
        env.deleteNetworkOk) = true) ∧
    ((reconcileDelete env).finalizerRemoved
      = (env.deleteLoadbalancersOk && env.deleteBastionOk && env.deleteSecurityGroupsOk &&
        env.deleteNetworkOk && env.deleteBucketOk)) ∧
    ((reconcileDelete env).errored
      = !(env.deleteLoadbalancersOk && env.deleteBastionOk && env.deleteSecurityGroupsOk &&
        env.deleteNetworkOk && env.deleteBucketOk)) ∧
    (env.deleteLoadbalancersOk = false →
      (reconcileDelete env).attempted.filter (fun s => s != TeardownStep.deleteEC2Events)
        = [TeardownStep.deleteLoadbalancers]) ∧
    ((env.deleteLoadbalancersOk && env.deleteBastionOk && env.deleteSecurityGroupsOk &&
        env.deleteNetworkOk && env.deleteBucketOk) = true →
      (reconcileDelete env).attempted.filter (fun s => s != TeardownStep.deleteEC2Events)
        = [TeardownStep.deleteLoadbalancers, TeardownStep.deleteBastion,
          TeardownStep.deleteSecurityGroups, TeardownStep.deleteNetwork,
          TeardownStep.deleteBucket]) := by
  obtain ⟨eb, ebOk, lbOk, bOk, sgOk, nOk, buOk⟩ := env
  cases eb <;> cases ebOk <;> cases lbOk <;> cases bOk <;> cases sgOk <;> cases nOk <;>
    cases buOk <;> decide

/-- Witness for C2: with load-balancer deletion failing, bastion
termination is never attempted and the finalizer stays. -/
theorem c2_teardown_order_witness :
    (TeardownStep.deleteBastion ∉
      (reconcileDelete ⟨false, true, false, true, true, true, true⟩).attempted) ∧
    (reconcileDelete ⟨false, true, false, true, true, true, true⟩).finalizerRemoved = false ∧
    (reconcileDelete ⟨false, true, false, true, true, true, true⟩).attempted.filter
      (fun s => s != TeardownStep.deleteEC2Events) = [TeardownStep.deleteLoadbalancers] := by
  have h := c2_teardown_order ⟨false, true, false, true, true, true, true⟩
  refine ⟨?_, ?_, h.2.2.2.2.2.2.2.1 rfl⟩
  · intro hmem
    exact absurd (h.2.1.mp hmem) (by decide)
  · simpa using h.2.2.2.2.2.1

/-- Claim C8: once every converger has succeeded, an empty load-balancer
DNS name makes reconcileNormal requeue after exactly 15 seconds with no
error and without marking ready; an unresolvable DNS name does the same;
ready is set only after both waits have passed. -/
theorem c8_dns_wait (env : NormalEnv)
    (hp : env.patchOk = true) (hn : env.reconcileNetworkOk = true)
    (hsg : env.reconcileSecurityGroupsOk = true) (hb : env.reconcileBastionOk = true)
    (hlb : env.reconcileLoadbalancersOk = true) (hbk : env.reconcileBucketOk = true) :
    (env.elbDNSName = "" → reconcileNormal env
      = { errored := false, requeueAfterSeconds := 15, ready := false, endpointHost := none }) ∧
    (env.elbDNSName ≠ "" → env.dnsResolves = false → reconcileNormal env
      = { errored := false, requeueAfterSeconds := 15, ready := false, endpointHost := none }) ∧
    ((reconcileNormal env).ready = true ↔ env.elbDNSName ≠ "" ∧ env.dnsResolves = true) := by
  refine ⟨?_, ?_, ?_⟩
  · intro hd
    simp [reconcileNormal, hp, hn, hsg, hb, hlb, hbk, hd]
  · intro hd hr
    simp [reconcileNormal, hp, hn, hsg, hb, hlb, hbk, hd, hr]
  · by_cases hd : env.elbDNSName = ""
    · simp [reconcileNormal, hp, hn, hsg, hb, hlb, hbk, hd]
    · cases hr : env.dnsResolves
      · simp [reconcileNormal, hp, hn, hsg, hb, hlb, hbk, hd, hr]
      · simp [reconcileNormal, hp, hn, hsg, hb, hlb, hbk, hd, hr]

/-- Witness for C8: all convergers succeed but the ELB DNS name is empty,
so the run requeues after 15 seconds with no error and no ready flag. -/
theorem c8_dns_wait_witness :
    reconcileNormal normalEnvNoDNS
      = { errored := false, requeueAfterSeconds := 15, ready := false, endpointHost := none } :=
  (c8_dns_wait normalEnvNoDNS rfl rfl rfl rfl rfl rfl).1 rfl

/-- Claim C9 (amended): a nil machine-level SSH key name inherits the
cluster-level value; when both are nil the default SSH key name is used
unless the cluster is externally managed, in which case no key name is
selected; a selected empty string means no SSH key name is set on the
create request. -/
theorem c9_ssh_key_selection (machineKey clusterKey : Option String) (ext : Bool) :
    (∀ k, machineKey = some k → prioritizedSSHKeyName machineKey clusterKey ext = k) ∧
    (machineKey = none → ∀ k, clusterKey = some k →
      prioritizedSSHKeyName machineKey clusterKey ext = k) ∧
    (machineKey = none → clusterKey = none → ext = false →
      prioritizedSSHKeyName machineKey clusterKey ext = defaultSSHKeyName) ∧
    (machineKey = none → clusterKey = none → ext = true →
      prioritizedSSHKeyName machineKey clusterKey ext = "") ∧
    (prioritizedSSHKeyName machineKey clusterKey ext = "" →
      inputSSHKeyName machineKey clusterKey ext = none) ∧
    (prioritizedSSHKeyName machineKey clusterKey ext ≠ "" →
      inputSSHKeyName machineKey clusterKey ext
        = some (prioritizedSSHKeyName machineKey clusterKey ext)) := by
  refine ⟨?_, ?_, ?_, ?_, ?_, ?_⟩
  · intro k hk
    simp [prioritizedSSHKeyName, hk]
  · intro hm k hk
    simp [prioritizedSSHKeyName, hm, hk]
  · intro hm hc he
    simp [prioritizedSSHKeyName, hm, hc, he]
  · intro hm hc he
    simp [prioritizedSSHKeyName, hm, hc, he]
  · intro hp
    simp [inputSSHKeyName, hp]
  · intro hp
    simp [inputSSHKeyName, hp]

/-- Counterexample for C9 as stated: on an externally managed cluster
with both SSH key names nil, no key name is selected at all instead of
the default one. -/
theorem c9_ssh_key_selection_counterexample :
    prioritizedSSHKeyName none none true = "" ∧
    inputSSHKeyName none none true = none ∧
    defaultSSHKeyName = "default" ∧
    inputSSHKeyName none none true ≠ some defaultSSHKeyName := by
  decide

/-- Witness for C9: machine value wins, cluster value is inherited, both
nil on a non-externally-managed cluster yields the default, and a
selected empty string sets no key on the request. -/
theorem c9_ssh_key_selection_witness :
    prioritizedSSHKeyName (some "machine-key") (some "cluster-key") false = "machine-key" ∧
    prioritizedSSHKeyName none (some "cluster-key") false = "cluster-key" ∧
    prioritizedSSHKeyName none none false = defaultSSHKeyName ∧
    inputSSHKeyName (some "") (some "cluster-key") false = none := by
  obtain ⟨h1, -, -, -, -, -⟩ := c9_ssh_key_selection (some "machine-key") (some "cluster-key") false
  obtain ⟨-, h2, -, -, -, -⟩ := c9_ssh_key_selection none (some "cluster-key") false
  obtain ⟨-, -, h3, -, -, -⟩ := c9_ssh_key_selection none none false
  obtain ⟨h1e, -, -, -, h5e, -⟩ := c9_ssh_key_selection (some "") (some "cluster-key") false
  exact ⟨h1 "machine-key" rfl, h2 rfl "cluster-key" rfl, h3 rfl rfl rfl, h5e (h1e "" rfl)⟩

/-- Claim C10: for a cluster that is neither externally managed nor
EKS-managed, an empty observed API-server ELB DNS name makes
CreateInstance fail with a FailedDependency error without ever issuing
the RunInstances create call (past image and subnet resolution). -/
theorem c10_elb_precondition (env : CreateInstanceEnv) (imageID subnetID : String)
    (himg : resolveImageID env = .ok imageID)
    (hsub : findSubnet env.subnetEnv = .ok subnetID)
    (hext : env.isExternallyManaged = false)
    (heks : env.isEKSManaged = false)
    (hdns : env.elbDNSName = "") :
    CreateInstance env
      = (.error (.failedDependency "failed to run controlplane, APIServer ELB not available"),
        false) := by
  simp [CreateInstance, himg, hsub, hext, heks, hdns]

/-- Witness for C10: a concrete control-plane environment with an
explicit AMI, a resolvable subnet and an empty ELB DNS name fails with
FailedDependency and issues no create call. -/
theorem c10_elb_precondition_witness :
    CreateInstance createEnvNoELB
      = (.error (.failedDependency "failed to run controlplane, APIServer ELB not available"),
        false) :=
  c10_elb_precondition createEnvNoELB "ami-1" "subnet-1" rfl rfl rfl rfl rfl

end CAPA
